import Mathlib

/-!
Verification of the GitHub webhook relay worker (src/index.ts).

The worker's pure logic is shallowly embedded here:
* `timingSafeEqual` — the constant-time string comparator;
* `stripFirst` / `jsReplaceOnce` — JavaScript `String.replace(pat, "")`
  with a string pattern, which removes the first occurrence of the
  pattern anywhere in the string;
* `verifySignature` — HMAC signature verification, parametric in the
  platform primitive `hmacHex` (hex digest of HMAC-SHA256, from
  `crypto.subtle`); it also returns the `console.error` lines it emits;
* `handle` — the request handler, parametric in the platform primitives
  `jsonParse` (`JSON.parse`), `stringifyDispatch` (`JSON.stringify` of
  the dispatch payload) and `doFetch` (outbound `fetch`); it returns
  `Except`, the `.error` case modelling an uncaught `JSON.parse` throw,
  and records the emitted log lines and outbound fetch calls.

JavaScript semantics captured explicitly: `if (!s)` on a nullable
string is true for both `null` and the empty string (`jsFalsy`), and
`Response.ok` means status in 200..299 (`fetchOk`).
-/

namespace LeaderboardBot

/-- JavaScript falsiness of a nullable string (`headers.get` result):
`null` and `""` are falsy. -/
def jsFalsy : Option String → Bool
  | none => true
  | some s => s.isEmpty

/-- Remove the first occurrence of `pat` from a character list
(the character-level core of JavaScript `String.replace(pat, "")`). -/
def stripFirst (pat : List Char) : List Char → List Char
  | [] => []
  | c :: rest =>
    if pat.isPrefixOf (c :: rest) then (c :: rest).drop pat.length
    else c :: stripFirst pat rest

/-- Does `pat` occur as a contiguous substring of the list? -/
def hasSubstr (pat : List Char) : List Char → Bool
  | [] => pat.isEmpty
  | c :: rest => pat.isPrefixOf (c :: rest) || hasSubstr pat rest

/-- JavaScript `s.replace(pat, "")` with a string pattern: removes the
first occurrence of `pat` anywhere in `s` (not only a leading one). -/
def jsReplaceOnce (s pat : String) : String := ⟨stripFirst pat.data s.data⟩

/-- Digest extraction from the `x-hub-signature-256` header
(src/index.ts line 69: `signature.replace("sha256=", "")`). -/
def extractSignatureHash (signature : String) : String :=
  jsReplaceOnce signature "sha256="

/-- The XOR accumulator of `timingSafeEqual`: fold over every character
pair of the zipped strings, OR-ing in the XOR of the char codes. -/
def xorAccum (a b : String) : Nat :=
  (a.data.zip b.data).foldl (fun r p => r ||| (p.1.toNat ^^^ p.2.toNat)) 0

/-- Timing-safe string comparison (src/index.ts `timingSafeEqual`):
immediate `false` on length mismatch, otherwise the XOR accumulation
over the full length must come out zero. -/
def timingSafeEqual (a b : String) : Bool :=
  if a.length ≠ b.length then false
  else xorAccum a b == 0

/-- Result of `verifySignature`: the boolean verdict together with the
`console.error` lines emitted while computing it. -/
structure VerifyResult where
  valid : Bool
  logs : List String
deriving DecidableEq

/-- Signature verification (src/index.ts `verifySignature`), parametric
in the platform HMAC-SHA256 hex digest `hmacHex secret payload`. An
empty secret logs a configuration error and fails verification. -/
def verifySignature (hmacHex : String → String → String)
    (payload signature secret : String) : VerifyResult :=
  if secret.isEmpty then
    { valid := false, logs := ["GITHUB_WEBHOOK_SECRET is not configured"] }
  else
    let signatureHash := extractSignatureHash signature
    let computedHash := hmacHex secret payload
    { valid := timingSafeEqual computedHash signatureHash, logs := [] }

/-! ### The request handler -/

/-- Worker environment bindings (src/index.ts `Env`). -/
structure Env where
  AUTOMATION_REPO_TRIGGER_TOKEN : String
  GITHUB_WEBHOOK_SECRET : String
deriving DecidableEq

/-- Inbound HTTP request: method, raw body, and the two headers the
handler reads (`headers.get` yields `none` when a header is absent). -/
structure Request where
  method : String
  body : String
  xGithubEvent : Option String
  xHubSignature256 : Option String
deriving DecidableEq

/-- An HTTP response produced by the handler (status and body text). -/
structure HttpResponse where
  status : Nat
  body : String
deriving DecidableEq

/-- The `client_payload` object of the dispatch body. -/
structure ClientPayload (α : Type) where
  github_event : String
  payload : α
deriving DecidableEq

/-- The dispatch body sent downstream (src/index.ts `DispatchPayload`). -/
structure DispatchPayload (α : Type) where
  event_type : String
  client_payload : ClientPayload α
deriving DecidableEq

/-- An outbound `fetch` call as issued by the handler: URL, method, the
four request headers, and the serialized body. -/
structure FetchCall where
  url : String
  method : String
  authorization : String
  accept : String
  contentType : String
  userAgent : String
  body : String
deriving DecidableEq

/-- A downstream response: status code and body text. -/
structure FetchResponse where
  status : Nat
  bodyText : String
deriving DecidableEq

/-- JavaScript `Response.ok`: status in the inclusive range 200..299. -/
def fetchOk (status : Nat) : Bool := 200 ≤ status && status ≤ 299

/-- The event types the handler forwards (src/index.ts line 141). -/
def recognizedEvents : List String := ["installation", "installation_repositories"]

/-- Everything `handle` produces: the HTTP response, the `console.error`
lines emitted, and the outbound fetch calls issued, in order. -/
structure HandleResult where
  response : HttpResponse
  logs : List String
  calls : List FetchCall
deriving DecidableEq

/-- Decidable equality of handler outcomes. -/
instance {ε α : Type} [DecidableEq ε] [DecidableEq α] : DecidableEq (Except ε α) :=
  fun a b =>
    match a, b with
    | .ok x, .ok y =>
      if h : x = y then .isTrue (by rw [h]) else .isFalse (by simp [h])
    | .error x, .error y =>
      if h : x = y then .isTrue (by rw [h]) else .isFalse (by simp [h])
    | .ok _, .error _ => .isFalse (by simp)
    | .error _, .ok _ => .isFalse (by simp)

/-- The outbound dispatch call the handler constructs (src/index.ts
lines 156-177): fixed URL and headers, body = serialized dispatch
payload with the fixed tag and the verbatim parsed envelope. -/
def dispatchCall {α : Type} (stringifyDispatch : DispatchPayload α → String)
    (event : String) (payload : α) (token : String) : FetchCall :=
  { url := "https://api.github.com/repos/rithviknishad/leaderboard-bot/dispatches"
    method := "POST"
    authorization := "token " ++ token
    accept := "application/vnd.github+json"
    contentType := "application/json"
    userAgent := "leaderboard-bot-worker"
    body := stringifyDispatch
      { event_type := "leaderboard-bot-installed"
        client_payload := { github_event := event, payload := payload } } }

/-- The request handler (src/index.ts `handle`), parametric in the
platform primitives. `.error e` models an uncaught `JSON.parse` throw.
Branch order follows the source: method guard, event-header guard,
signature-header guard (both falsy guards: absent OR empty string),
signature verification, `JSON.parse`, event filter, token guard,
single outbound fetch, response translation via `Response.ok`. -/
def handle {α : Type} (hmacHex : String → String → String)
    (jsonParse : String → Except String α)
    (stringifyDispatch : DispatchPayload α → String)
    (doFetch : FetchCall → FetchResponse)
    (req : Request) (env : Env) : Except String HandleResult :=
  if req.method ≠ "POST" then
    .ok ⟨⟨200, "ok"⟩, [], []⟩
  else if jsFalsy req.xGithubEvent then
    .ok ⟨⟨400, "missing x-github-event header"⟩, [], []⟩
  else if jsFalsy req.xHubSignature256 then
    .ok ⟨⟨401, "missing x-hub-signature-256 header"⟩, [], []⟩
  else
    let event := req.xGithubEvent.getD ""
    let signature := req.xHubSignature256.getD ""
    let v := verifySignature hmacHex req.body signature env.GITHUB_WEBHOOK_SECRET
    if v.valid = false then
      .ok ⟨⟨401, "invalid signature"⟩, v.logs, []⟩
    else
      match jsonParse req.body with
      | .error e => .error e
      | .ok payload =>
        if (recognizedEvents.contains event) = false then
          .ok ⟨⟨200, "event ignored"⟩, v.logs, []⟩
        else if env.AUTOMATION_REPO_TRIGGER_TOKEN.isEmpty then
          .ok ⟨⟨500, "missing AUTOMATION_REPO_TRIGGER_TOKEN"⟩, v.logs, []⟩
        else
          let call := dispatchCall stringifyDispatch event payload
            env.AUTOMATION_REPO_TRIGGER_TOKEN
          let resp := doFetch call
          if fetchOk resp.status = false then
            .ok ⟨⟨500, "dispatch failed: " ++ toString resp.status⟩,
              v.logs ++
                ["GitHub API error: " ++ toString resp.status ++ " - " ++ resp.bodyText],
              [call]⟩
          else
            .ok ⟨⟨200, "dispatched: " ++ toString resp.status⟩, v.logs, [call]⟩

/-! ### Concrete instances of the platform primitives, for witnesses -/

/-- A concrete stand-in for the HMAC hex digest primitive. -/
def demoHmac : String → String → String := fun _ b => "digest-" ++ b

/-- A concrete stand-in for `JSON.parse` that accepts every body. -/
def demoParse : String → Except String String := fun s => .ok s

/-- A concrete stand-in for `JSON.parse` that throws on every body,
as the real one does on malformed JSON. -/
def failParse : String → Except String String := fun _ => .error "SyntaxError"

/-- A concrete stand-in for `JSON.stringify` on the dispatch payload. -/
def demoStringify : DispatchPayload String → String :=
  fun d => d.event_type ++ ":" ++ d.client_payload.github_event ++ ":" ++
    d.client_payload.payload

/-- A downstream that answers 204 No Content. -/
def demoFetch204 : FetchCall → FetchResponse := fun _ => ⟨204, ""⟩

/-- A downstream that answers 401 Unauthorized. -/
def demoFetch401 : FetchCall → FetchResponse := fun _ => ⟨401, "Unauthorized"⟩

/-- Observation: the outbound calls of a handler outcome (none for an
uncaught parse failure). -/
def callsOf : Except String HandleResult → List FetchCall
  | .ok r => r.calls
  | .error _ => []

/-- Observation: did the handler finish without an uncaught failure? -/
def isOk : Except String HandleResult → Bool
  | .ok _ => true
  | .error _ => false

/-! ### Helper lemmas about the comparator -/

lemma nat_or_eq_zero {m n : Nat} : m ||| n = 0 ↔ m = 0 ∧ n = 0 := by
  constructor
  · intro h
    refine ⟨Nat.eq_of_testBit_eq fun i => ?_, Nat.eq_of_testBit_eq fun i => ?_⟩ <;>
    · have := congrArg (fun x => Nat.testBit x i) h
      simp [Nat.testBit_or] at this ⊢
      tauto
  · rintro ⟨h1, h2⟩
    simp [h1, h2]

lemma char_toNat_inj {a b : Char} (h : a.toNat = b.toNat) : a = b :=
  Char.ext (UInt32.ext h)

lemma xor_pair_eq_zero {a b : Char} : a.toNat ^^^ b.toNat = 0 ↔ a = b := by
  rw [Nat.xor_eq_zero]
  exact ⟨fun h => char_toNat_inj h, fun h => by rw [h]⟩

lemma foldl_or_xor_eq_zero (l : List (Char × Char)) (acc : Nat) :
    (l.foldl (fun r p => r ||| (p.1.toNat ^^^ p.2.toNat)) acc = 0) ↔
      (acc = 0 ∧ ∀ p ∈ l, p.1 = p.2) := by
  induction l generalizing acc with
  | nil => simp
  | cons hd tl ih =>
    rw [List.foldl_cons, ih, nat_or_eq_zero]
    constructor
    · rintro ⟨⟨h1, h2⟩, h3⟩
      refine ⟨h1, fun p hp => ?_⟩
      rcases List.mem_cons.mp hp with rfl | hp
      · exact xor_pair_eq_zero.mp h2
      · exact h3 p hp
    · rintro ⟨h1, h2⟩
      exact ⟨⟨h1, xor_pair_eq_zero.mpr (h2 hd (List.mem_cons_self _ _))⟩,
        fun p hp => h2 p (List.mem_cons_of_mem _ hp)⟩

lemma zip_self_fst_eq_snd {l : List Char} : ∀ p ∈ l.zip l, p.1 = p.2 := by
  induction l with
  | nil => simp
  | cons hd tl ih =>
    intro p hp
    rw [List.zip_cons_cons, List.mem_cons] at hp
    rcases hp with rfl | hp
    · rfl
    · exact ih p hp

lemma eq_of_zip_eq {l1 l2 : List Char} (hlen : l1.length = l2.length)
    (h : ∀ p ∈ l1.zip l2, p.1 = p.2) : l1 = l2 := by
  induction l1 generalizing l2 with
  | nil =>
    cases l2 with
    | nil => rfl
    | cons _ _ => simp at hlen
  | cons hd tl ih =>
    cases l2 with
    | nil => simp at hlen
    | cons hd2 tl2 =>
      rw [List.zip_cons_cons] at h
      have h0 : hd = hd2 := h (hd, hd2) (List.mem_cons_self _ _)
      have ht : tl = tl2 :=
        ih (by simpa using hlen) (fun p hp => h p (List.mem_cons_of_mem _ hp))
      rw [h0, ht]

lemma xorAccum_eq_zero_iff {a b : String} (hlen : a.length = b.length) :
    xorAccum a b = 0 ↔ a = b := by
  unfold xorAccum
  rw [foldl_or_xor_eq_zero]
  constructor
  · rintro ⟨-, h⟩
    exact String.ext (eq_of_zip_eq hlen h)
  · rintro rfl
    exact ⟨rfl, zip_self_fst_eq_snd⟩

lemma timingSafeEqual_eq_beq (a b : String) : timingSafeEqual a b = (a == b) := by
  unfold timingSafeEqual
  by_cases hlen : a.length = b.length
  · rw [if_neg (by simp [hlen]), Bool.eq_iff_iff]
    simp only [beq_iff_eq]
    exact xorAccum_eq_zero_iff hlen
  · rw [if_pos hlen]
    have hne : a ≠ b := fun h => hlen (h ▸ rfl)
    exact (beq_eq_false_iff_ne.mpr hne).symm

/-! ### Helper lemmas about digest extraction -/

lemma stripFirst_cons_append (p : Char) (ps l : List Char) :
    stripFirst (p :: ps) ((p :: ps) ++ l) = l := by
  rw [List.cons_append]
  simp only [stripFirst]
  rw [if_pos, ← List.cons_append, List.drop_left]
  exact List.isPrefixOf_iff_prefix.mpr
    (by rw [← List.cons_append]; exact List.prefix_append _ _)

lemma stripFirst_append (pat l : List Char) (hp : pat ≠ []) :
    stripFirst pat (pat ++ l) = l := by
  cases pat with
  | nil => exact absurd rfl hp
  | cons p ps => exact stripFirst_cons_append p ps l

lemma stripFirst_of_not_hasSubstr (pat l : List Char)
    (h : hasSubstr pat l = false) : stripFirst pat l = l := by
  induction l with
  | nil => rfl
  | cons c rest ih =>
    simp only [hasSubstr, Bool.or_eq_false_iff] at h
    simp only [stripFirst]
    rw [if_neg (by simp [h.1]), ih h.2]

lemma extract_prepend (rest : String) :
    extractSignatureHash ("sha256=" ++ rest) = rest := by
  unfold extractSignatureHash jsReplaceOnce
  apply String.ext
  show stripFirst "sha256=".data ("sha256=" ++ rest).data = rest.data
  rw [String.data_append]
  exact stripFirst_append _ _ (by decide)

lemma verifySignature_valid_of_match (hmacHex : String → String → String)
    (payload secret : String) (hsec : secret ≠ "") :
    verifySignature hmacHex payload ("sha256=" ++ hmacHex secret payload) secret =
      { valid := true, logs := [] } := by
  have hne : secret.isEmpty = false := by
    cases h : secret.isEmpty
    · rfl
    · exact absurd ((String.isEmpty_iff secret).mp h) hsec
  unfold verifySignature
  rw [if_neg (by simp [hne])]
  show VerifyResult.mk
      (timingSafeEqual (hmacHex secret payload)
        (extractSignatureHash ("sha256=" ++ hmacHex secret payload))) [] = _
  rw [extract_prepend, timingSafeEqual_eq_beq, beq_self_eq_true]


/-! ### Helper lemmas about verification and the handler -/

lemma empty_isEmpty : "".isEmpty = true := rfl

lemma isEmpty_false_of_ne {s : String} (h : s ≠ "") : s.isEmpty = false := by
  cases hh : s.isEmpty
  · rfl
  · exact absurd ((String.isEmpty_iff s).mp hh) h

lemma jsFalsy_some_ne (s : String) (h : s ≠ "") : jsFalsy (some s) = false := by
  simp only [jsFalsy]
  exact isEmpty_false_of_ne h

lemma verifySignature_empty_secret (hmacHex : String → String → String)
    (payload signature : String) :
    verifySignature hmacHex payload signature "" =
      { valid := false, logs := ["GITHUB_WEBHOOK_SECRET is not configured"] } := rfl

lemma verifySignature_of_valid (hmacHex : String → String → String)
    (payload signature secret : String)
    (h : (verifySignature hmacHex payload signature secret).valid = true) :
    verifySignature hmacHex payload signature secret =
      { valid := true, logs := [] } := by
  unfold verifySignature at h ⊢
  by_cases hs : secret.isEmpty
  · rw [if_pos hs] at h
    exact absurd h (by simp)
  · rw [if_neg hs] at h ⊢
    have h' : timingSafeEqual (hmacHex secret payload)
        (extractSignatureHash signature) = true := h
    show VerifyResult.mk
      (timingSafeEqual (hmacHex secret payload) (extractSignatureHash signature)) [] = _
    rw [h']

lemma recognized_ne_empty {e : String} (h : recognizedEvents.contains e = true) :
    e ≠ "" := by
  intro hemp
  rw [hemp] at h
  exact absurd h (by decide)

lemma handle_dispatch_cases {α : Type} (hmacHex : String → String → String)
    (jsonParse : String → Except String α)
    (stringifyDispatch : DispatchPayload α → String)
    (doFetch : FetchCall → FetchResponse)
    (req : Request) (env : Env) (e s : String) (payload : α)
    (hm : req.method = "POST")
    (hev : req.xGithubEvent = some e)
    (hsg : req.xHubSignature256 = some s) (hs : s ≠ "")
    (hvalid : (verifySignature hmacHex req.body s env.GITHUB_WEBHOOK_SECRET).valid = true)
    (hparse : jsonParse req.body = .ok payload)
    (hrec : recognizedEvents.contains e = true)
    (htok : env.AUTOMATION_REPO_TRIGGER_TOKEN ≠ "") :
    (fetchOk (doFetch (dispatchCall stringifyDispatch e payload
          env.AUTOMATION_REPO_TRIGGER_TOKEN)).status = true →
      handle hmacHex jsonParse stringifyDispatch doFetch req env =
        .ok ⟨⟨200, "dispatched: " ++ toString (doFetch (dispatchCall stringifyDispatch e
              payload env.AUTOMATION_REPO_TRIGGER_TOKEN)).status⟩, [],
          [dispatchCall stringifyDispatch e payload env.AUTOMATION_REPO_TRIGGER_TOKEN]⟩)
    ∧ (fetchOk (doFetch (dispatchCall stringifyDispatch e payload
          env.AUTOMATION_REPO_TRIGGER_TOKEN)).status = false →
      handle hmacHex jsonParse stringifyDispatch doFetch req env =
        .ok ⟨⟨500, "dispatch failed: " ++ toString (doFetch (dispatchCall stringifyDispatch e
              payload env.AUTOMATION_REPO_TRIGGER_TOKEN)).status⟩,
          ["GitHub API error: " ++ toString (doFetch (dispatchCall stringifyDispatch e
              payload env.AUTOMATION_REPO_TRIGGER_TOKEN)).status ++ " - " ++
            (doFetch (dispatchCall stringifyDispatch e payload
              env.AUTOMATION_REPO_TRIGGER_TOKEN)).bodyText],
          [dispatchCall stringifyDispatch e payload env.AUTOMATION_REPO_TRIGGER_TOKEN]⟩) := by
  have he : e ≠ "" := recognized_ne_empty hrec
  have hmem : e ∈ recognizedEvents := by simpa using hrec
  constructor <;> intro hok <;>
    simp [handle, hm, hev, hsg, jsFalsy_some_ne e he, jsFalsy_some_ne s hs,
      verifySignature_of_valid hmacHex req.body s env.GITHUB_WEBHOOK_SECRET hvalid,
      hparse, hrec, isEmpty_false_of_ne htok, hok, hmem]

/-! ### The claims -/

/-- Claim C1: the comparator `timingSafeEqual a b` returns true if and
only if `a = b`; structurally it is the equal-length guard (immediate
false on a length mismatch) followed by the XOR accumulation over every
character pair of the full zipped strings, returning false exactly when
the accumulated value is nonzero. -/
theorem claim_C1 (a b : String) :
    timingSafeEqual a b = (a == b)
    ∧ timingSafeEqual a b =
        (decide (a.length = b.length) && (xorAccum a b == 0)) := by
  refine ⟨timingSafeEqual_eq_beq a b, ?_⟩
  by_cases hlen : a.length = b.length <;> simp [timingSafeEqual, hlen]

/-- Claim C2 counterexample: with the empty secret, `verifySignature`
returns false even for a correctly signed body (the code short-circuits
before computing any digest), refuting "for every secret S". -/
theorem claim_C2_counterexample :
    (verifySignature demoHmac "x" ("sha256=" ++ demoHmac "" "x") "").valid = false := by
  decide

/-- Claim C2 (amended): for every digest primitive, body and NON-EMPTY
secret, the correctly signed request verifies; and a signature computed
over a different body fails whenever the two digests differ (as they do
for distinct bodies absent an HMAC collision). -/
theorem claim_C2 (hmacHex : String → String → String) (B B1 B2 S : String)
    (hS : S ≠ "") (hdig : hmacHex S B1 ≠ hmacHex S B2) :
    (verifySignature hmacHex B ("sha256=" ++ hmacHex S B) S).valid = true
    ∧ (verifySignature hmacHex B1 ("sha256=" ++ hmacHex S B2) S).valid = false := by
  have hne : S.isEmpty = false := isEmpty_false_of_ne hS
  constructor
  · rw [verifySignature_valid_of_match hmacHex B S hS]
  · unfold verifySignature
    rw [if_neg (by simp [hne])]
    show timingSafeEqual (hmacHex S B1)
      (extractSignatureHash ("sha256=" ++ hmacHex S B2)) = false
    rw [extract_prepend, timingSafeEqual_eq_beq]
    exact beq_eq_false_iff_ne.mpr hdig

theorem claim_C2_witness :
    (verifySignature demoHmac "x" ("sha256=" ++ demoHmac "k" "x") "k").valid = true
    ∧ (verifySignature demoHmac "x" ("sha256=" ++ demoHmac "k" "y") "k").valid = false :=
  claim_C2 demoHmac "x" "x" "y" "k" (by decide) (by decide)

/-- Claim C4 counterexample: `"xsha256=abc"` does not start with
`"sha256="`, yet extraction does not leave it unchanged — JavaScript
`replace` removes the first occurrence of the pattern anywhere. -/
theorem claim_C4_counterexample :
    "sha256=".data.isPrefixOf "xsha256=abc".data = false
    ∧ extractSignatureHash "xsha256=abc" = "xabc"
    ∧ extractSignatureHash "xsha256=abc" ≠ "xsha256=abc" := by
  refine ⟨?_, ?_, ?_⟩ <;> decide

/-- Claim C4 (amended): extraction removes the first occurrence of
`"sha256="` anywhere in the header value; in particular a value starting
with the prefix is stripped of it, and a value that does not contain
`"sha256="` at all is compared as-is. -/
theorem claim_C4 (rest v : String) :
    extractSignatureHash ("sha256=" ++ rest) = rest
    ∧ (hasSubstr "sha256=".data v.data = false → extractSignatureHash v = v) := by
  refine ⟨extract_prepend rest, fun h => ?_⟩
  unfold extractSignatureHash jsReplaceOnce
  apply String.ext
  show stripFirst "sha256=".data v.data = v.data
  exact stripFirst_of_not_hasSubstr _ _ h

theorem claim_C4_witness :
    extractSignatureHash ("sha256=" ++ "abc") = "abc"
    ∧ extractSignatureHash "zz" = "zz" :=
  ⟨(claim_C4 "abc" "zz").1, (claim_C4 "abc" "zz").2 (by decide)⟩

/-- Claim C3 counterexample: a POST carrying both required headers, the
signature header with the empty-string value, and the empty secret: the
response body is the missing-header message instead of
"invalid signature", and no configuration report is emitted. -/
theorem claim_C3_counterexample :
    handle demoHmac demoParse demoStringify demoFetch204
        ⟨"POST", "b", some "installation", some ""⟩ ⟨"t", ""⟩ =
      .ok ⟨⟨401, "missing x-hub-signature-256 header"⟩, [], []⟩
    ∧ handle demoHmac demoParse demoStringify demoFetch204
        ⟨"POST", "b", some "installation", some ""⟩ ⟨"t", ""⟩ ≠
      .ok ⟨⟨401, "invalid signature"⟩,
        ["GITHUB_WEBHOOK_SECRET is not configured"], []⟩ := by
  constructor <;> decide

/-- Claim C3 (amended: both header values non-empty): with the secret
empty, verification fails for every body and every signature string,
the configuration report is emitted, and the response is 401
"invalid signature" — verification is never skipped. -/
theorem claim_C3 {α : Type} (hmacHex : String → String → String)
    (jsonParse : String → Except String α)
    (stringifyDispatch : DispatchPayload α → String)
    (doFetch : FetchCall → FetchResponse)
    (req : Request) (env : Env) (e s : String)
    (hm : req.method = "POST")
    (hev : req.xGithubEvent = some e) (he : e ≠ "")
    (hsg : req.xHubSignature256 = some s) (hs : s ≠ "")
    (hsec : env.GITHUB_WEBHOOK_SECRET = "") :
    (∀ body sig, (verifySignature hmacHex body sig "").valid = false)
    ∧ handle hmacHex jsonParse stringifyDispatch doFetch req env =
        .ok ⟨⟨401, "invalid signature"⟩,
          ["GITHUB_WEBHOOK_SECRET is not configured"], []⟩ := by
  refine ⟨fun body sig => rfl, ?_⟩
  simp [handle, hm, hev, hsg, hsec, jsFalsy_some_ne e he, jsFalsy_some_ne s hs,
    verifySignature_empty_secret]

theorem claim_C3_witness :
    handle demoHmac demoParse demoStringify demoFetch204
        ⟨"POST", "b", some "installation", some "sha256=zz"⟩ ⟨"t", ""⟩ =
      .ok ⟨⟨401, "invalid signature"⟩,
        ["GITHUB_WEBHOOK_SECRET is not configured"], []⟩ :=
  (claim_C3 demoHmac demoParse demoStringify demoFetch204
    ⟨"POST", "b", some "installation", some "sha256=zz"⟩ ⟨"t", ""⟩
    "installation" "sha256=zz" rfl rfl (by decide) rfl (by decide) rfl).2

/-- Claim C5 counterexample: a POST with event header present and the
signature header present but empty, with a configured secret: the code
answers with the missing-header error kind, not "invalid signature" —
the empty value is falsy and never reaches the hash comparison. -/
theorem claim_C5_counterexample :
    handle demoHmac demoParse demoStringify demoFetch204
        ⟨"POST", "b", some "installation", some ""⟩ ⟨"t", "k"⟩ =
      .ok ⟨⟨401, "missing x-hub-signature-256 header"⟩, [], []⟩
    ∧ handle demoHmac demoParse demoStringify demoFetch204
        ⟨"POST", "b", some "installation", some ""⟩ ⟨"t", "k"⟩ ≠
      .ok ⟨⟨401, "invalid signature"⟩, [], []⟩ := by
  constructor <;> decide

/-- Claim C5 (amended): a present-but-empty `x-hub-signature-256` header
is treated exactly like an absent one (JavaScript falsiness): the
response is 401 "missing x-hub-signature-256 header" for every digest
primitive, parser and environment, so the hash/length comparison is
never reached. -/
theorem claim_C5 {α : Type} (hmacHex : String → String → String)
    (jsonParse : String → Except String α)
    (stringifyDispatch : DispatchPayload α → String)
    (doFetch : FetchCall → FetchResponse)
    (req : Request) (env : Env) (e : String)
    (hm : req.method = "POST")
    (hev : req.xGithubEvent = some e) (he : e ≠ "")
    (hsg : req.xHubSignature256 = some "") :
    handle hmacHex jsonParse stringifyDispatch doFetch req env =
      .ok ⟨⟨401, "missing x-hub-signature-256 header"⟩, [], []⟩ := by
  simp [handle, hm, hev, hsg, jsFalsy, isEmpty_false_of_ne he, empty_isEmpty]

theorem claim_C5_witness :
    handle demoHmac demoParse demoStringify demoFetch204
        ⟨"POST", "x", some "push", some ""⟩ ⟨"", "k"⟩ =
      .ok ⟨⟨401, "missing x-hub-signature-256 header"⟩, [], []⟩ :=
  claim_C5 demoHmac demoParse demoStringify demoFetch204
    ⟨"POST", "x", some "push", some ""⟩ ⟨"", "k"⟩ "push" rfl rfl (by decide) rfl

/-- Claim C6 counterexample: with a valid signature but a body the
parser rejects, an unrecognized event does NOT yield 200/"event
ignored" — `JSON.parse` runs before the event filter and the parse
failure propagates; additionally an empty event header value yields the
400 missing-header response rather than "event ignored". -/
theorem claim_C6_counterexample :
    handle demoHmac failParse demoStringify demoFetch204
        ⟨"POST", "not json", some "push", some "sha256=digest-not json"⟩ ⟨"t", "k"⟩ =
      .error "SyntaxError"
    ∧ handle demoHmac demoParse demoStringify demoFetch204
        ⟨"POST", "b", some "", some "sha256=digest-b"⟩ ⟨"t", "k"⟩ =
      .ok ⟨⟨400, "missing x-github-event header"⟩, [], []⟩ := by
  constructor <;> decide

/-- Claim C6 (amended): for every POST with a valid signature, a body
the parser accepts, and a non-empty event header value outside the
recognized set, the response is 200 "event ignored" with no outbound
call and no log. -/
theorem claim_C6 {α : Type} (hmacHex : String → String → String)
    (jsonParse : String → Except String α)
    (stringifyDispatch : DispatchPayload α → String)
    (doFetch : FetchCall → FetchResponse)
    (req : Request) (env : Env) (e s : String) (payload : α)
    (hm : req.method = "POST")
    (hev : req.xGithubEvent = some e) (he : e ≠ "")
    (hsg : req.xHubSignature256 = some s) (hs : s ≠ "")
    (hvalid : (verifySignature hmacHex req.body s env.GITHUB_WEBHOOK_SECRET).valid = true)
    (hparse : jsonParse req.body = .ok payload)
    (hrec : recognizedEvents.contains e = false) :
    handle hmacHex jsonParse stringifyDispatch doFetch req env =
      .ok ⟨⟨200, "event ignored"⟩, [], []⟩ := by
  have hmem : e ∉ recognizedEvents := by simpa using hrec
  simp [handle, hm, hev, hsg, jsFalsy_some_ne e he, jsFalsy_some_ne s hs,
    verifySignature_of_valid hmacHex req.body s env.GITHUB_WEBHOOK_SECRET hvalid,
    hparse, hrec, hmem]

theorem claim_C6_witness :
    handle demoHmac demoParse demoStringify demoFetch204
        ⟨"POST", "b", some "push", some "sha256=digest-b"⟩ ⟨"t", "k"⟩ =
      .ok ⟨⟨200, "event ignored"⟩, [], []⟩ :=
  claim_C6 demoHmac demoParse demoStringify demoFetch204
    ⟨"POST", "b", some "push", some "sha256=digest-b"⟩ ⟨"t", "k"⟩
    "push" "sha256=digest-b" "b" rfl rfl (by decide) rfl (by decide) (by decide) rfl
    (by decide)

/-- Claim C7: on the dispatch path (recognized event, valid signature,
parseable body, non-empty token) the handler issues exactly one
outbound call, a POST whose body is the serialization of the dispatch
payload: fixed tag "leaderboard-bot-installed", client payload carrying
the event header value and the parsed body verbatim. -/
theorem claim_C7 {α : Type} (hmacHex : String → String → String)
    (jsonParse : String → Except String α)
    (stringifyDispatch : DispatchPayload α → String)
    (doFetch : FetchCall → FetchResponse)
    (req : Request) (env : Env) (e s : String) (payload : α)
    (hm : req.method = "POST")
    (hev : req.xGithubEvent = some e)
    (hsg : req.xHubSignature256 = some s) (hs : s ≠ "")
    (hvalid : (verifySignature hmacHex req.body s env.GITHUB_WEBHOOK_SECRET).valid = true)
    (hparse : jsonParse req.body = .ok payload)
    (hrec : recognizedEvents.contains e = true)
    (htok : env.AUTOMATION_REPO_TRIGGER_TOKEN ≠ "") :
    callsOf (handle hmacHex jsonParse stringifyDispatch doFetch req env) =
      [dispatchCall stringifyDispatch e payload env.AUTOMATION_REPO_TRIGGER_TOKEN]
    ∧ (dispatchCall stringifyDispatch e payload env.AUTOMATION_REPO_TRIGGER_TOKEN).method
        = "POST"
    ∧ (dispatchCall stringifyDispatch e payload env.AUTOMATION_REPO_TRIGGER_TOKEN).body =
        stringifyDispatch
          { event_type := "leaderboard-bot-installed"
            client_payload := { github_event := e, payload := payload } } := by
  have hcases := handle_dispatch_cases hmacHex jsonParse stringifyDispatch doFetch
    req env e s payload hm hev hsg hs hvalid hparse hrec htok
  refine ⟨?_, rfl, rfl⟩
  cases hok : fetchOk (doFetch (dispatchCall stringifyDispatch e payload
      env.AUTOMATION_REPO_TRIGGER_TOKEN)).status
  · rw [hcases.2 hok]
    rfl
  · rw [hcases.1 hok]
    rfl

theorem claim_C7_witness :
    callsOf (handle demoHmac demoParse demoStringify demoFetch204
        ⟨"POST", "b", some "installation", some "sha256=digest-b"⟩ ⟨"t", "k"⟩) =
      [dispatchCall demoStringify "installation" "b" "t"]
    ∧ (dispatchCall demoStringify "installation" "b" "t").method = "POST"
    ∧ (dispatchCall demoStringify "installation" "b" "t").body =
        demoStringify
          { event_type := "leaderboard-bot-installed"
            client_payload := { github_event := "installation", payload := "b" } } :=
  claim_C7 demoHmac demoParse demoStringify demoFetch204
    ⟨"POST", "b", some "installation", some "sha256=digest-b"⟩ ⟨"t", "k"⟩
    "installation" "sha256=digest-b" "b" rfl rfl rfl (by decide) (by decide) rfl
    (by decide) (by decide)

/-- Claim C8: on the dispatch path exactly one outbound call is
attempted (the calls list is the same singleton in both outcomes, no
retry); a 2xx downstream status yields 200 "dispatched: status", and a
non-2xx status is reported on the observability channel and yields 500
"dispatch failed: status". -/
theorem claim_C8 {α : Type} (hmacHex : String → String → String)
    (jsonParse : String → Except String α)
    (stringifyDispatch : DispatchPayload α → String)
    (doFetch : FetchCall → FetchResponse)
    (req : Request) (env : Env) (e s : String) (payload : α)
    (hm : req.method = "POST")
    (hev : req.xGithubEvent = some e)
    (hsg : req.xHubSignature256 = some s) (hs : s ≠ "")
    (hvalid : (verifySignature hmacHex req.body s env.GITHUB_WEBHOOK_SECRET).valid = true)
    (hparse : jsonParse req.body = .ok payload)
    (hrec : recognizedEvents.contains e = true)
    (htok : env.AUTOMATION_REPO_TRIGGER_TOKEN ≠ "") :
    callsOf (handle hmacHex jsonParse stringifyDispatch doFetch req env) =
      [dispatchCall stringifyDispatch e payload env.AUTOMATION_REPO_TRIGGER_TOKEN]
    ∧ (fetchOk (doFetch (dispatchCall stringifyDispatch e payload
          env.AUTOMATION_REPO_TRIGGER_TOKEN)).status = true →
        handle hmacHex jsonParse stringifyDispatch doFetch req env =
          .ok ⟨⟨200, "dispatched: " ++ toString (doFetch (dispatchCall stringifyDispatch e
                payload env.AUTOMATION_REPO_TRIGGER_TOKEN)).status⟩, [],
            [dispatchCall stringifyDispatch e payload env.AUTOMATION_REPO_TRIGGER_TOKEN]⟩)
    ∧ (fetchOk (doFetch (dispatchCall stringifyDispatch e payload
          env.AUTOMATION_REPO_TRIGGER_TOKEN)).status = false →
        handle hmacHex jsonParse stringifyDispatch doFetch req env =
          .ok ⟨⟨500, "dispatch failed: " ++ toString (doFetch (dispatchCall
                stringifyDispatch e payload env.AUTOMATION_REPO_TRIGGER_TOKEN)).status⟩,
            ["GitHub API error: " ++ toString (doFetch (dispatchCall stringifyDispatch e
                payload env.AUTOMATION_REPO_TRIGGER_TOKEN)).status ++ " - " ++
              (doFetch (dispatchCall stringifyDispatch e payload
                env.AUTOMATION_REPO_TRIGGER_TOKEN)).bodyText],
            [dispatchCall stringifyDispatch e payload
              env.AUTOMATION_REPO_TRIGGER_TOKEN]⟩) := by
  have hcases := handle_dispatch_cases hmacHex jsonParse stringifyDispatch doFetch
    req env e s payload hm hev hsg hs hvalid hparse hrec htok
  refine ⟨?_, hcases.1, hcases.2⟩
  cases hok : fetchOk (doFetch (dispatchCall stringifyDispatch e payload
      env.AUTOMATION_REPO_TRIGGER_TOKEN)).status
  · rw [hcases.2 hok]
    rfl
  · rw [hcases.1 hok]
    rfl

theorem claim_C8_witness :
    handle demoHmac demoParse demoStringify demoFetch401
        ⟨"POST", "b", some "installation", some "sha256=digest-b"⟩ ⟨"t", "k"⟩ =
      .ok ⟨⟨500, "dispatch failed: 401"⟩,
        ["GitHub API error: 401 - Unauthorized"],
        [dispatchCall demoStringify "installation" "b" "t"]⟩ :=
  (claim_C8 demoHmac demoParse demoStringify demoFetch401
    ⟨"POST", "b", some "installation", some "sha256=digest-b"⟩ ⟨"t", "k"⟩
    "installation" "sha256=digest-b" "b" rfl rfl rfl (by decide) (by decide) rfl
    (by decide) (by decide)).2.2 (by decide)

/-- Claim C9: on the dispatch path with an empty trigger token the
response is 500 "missing AUTOMATION_REPO_TRIGGER_TOKEN" and no
outbound call is attempted. -/
theorem claim_C9 {α : Type} (hmacHex : String → String → String)
    (jsonParse : String → Except String α)
    (stringifyDispatch : DispatchPayload α → String)
    (doFetch : FetchCall → FetchResponse)
    (req : Request) (env : Env) (e s : String) (payload : α)
    (hm : req.method = "POST")
    (hev : req.xGithubEvent = some e)
    (hsg : req.xHubSignature256 = some s) (hs : s ≠ "")
    (hvalid : (verifySignature hmacHex req.body s env.GITHUB_WEBHOOK_SECRET).valid = true)
    (hparse : jsonParse req.body = .ok payload)
    (hrec : recognizedEvents.contains e = true)
    (htok : env.AUTOMATION_REPO_TRIGGER_TOKEN = "") :
    handle hmacHex jsonParse stringifyDispatch doFetch req env =
      .ok ⟨⟨500, "missing AUTOMATION_REPO_TRIGGER_TOKEN"⟩, [], []⟩ := by
  have he : e ≠ "" := recognized_ne_empty hrec
  have hmem : e ∈ recognizedEvents := by simpa using hrec
  simp [handle, hm, hev, hsg, jsFalsy_some_ne e he, jsFalsy_some_ne s hs,
    verifySignature_of_valid hmacHex req.body s env.GITHUB_WEBHOOK_SECRET hvalid,
    hparse, hmem, htok, empty_isEmpty]

theorem claim_C9_witness :
    handle demoHmac demoParse demoStringify demoFetch204
        ⟨"POST", "b", some "installation", some "sha256=digest-b"⟩ ⟨"", "k"⟩ =
      .ok ⟨⟨500, "missing AUTOMATION_REPO_TRIGGER_TOKEN"⟩, [], []⟩ :=
  claim_C9 demoHmac demoParse demoStringify demoFetch204
    ⟨"POST", "b", some "installation", some "sha256=digest-b"⟩ ⟨"", "k"⟩
    "installation" "sha256=digest-b" "b" rfl rfl rfl (by decide) (by decide) rfl
    (by decide) rfl

/-- Claim C10: for every POST request that misses (or carries falsy)
required headers or whose signature does not verify, the handler result
does not depend on the parser at all — the body is never parsed — and
no uncaught parse fault can occur: the result is a plain response. -/
theorem claim_C10 {α : Type} (hmacHex : String → String → String)
    (p1 p2 : String → Except String α)
    (stringifyDispatch : DispatchPayload α → String)
    (doFetch : FetchCall → FetchResponse)
    (req : Request) (env : Env)
    (hm : req.method = "POST")
    (hfail : jsFalsy req.xGithubEvent = true ∨ jsFalsy req.xHubSignature256 = true ∨
      (verifySignature hmacHex req.body (req.xHubSignature256.getD "")
        env.GITHUB_WEBHOOK_SECRET).valid = false) :
    handle hmacHex p1 stringifyDispatch doFetch req env =
      handle hmacHex p2 stringifyDispatch doFetch req env
    ∧ isOk (handle hmacHex p1 stringifyDispatch doFetch req env) = true := by
  by_cases hef : jsFalsy req.xGithubEvent = true
  · constructor
    · simp [handle, hm, hef]
    · simp [isOk, handle, hm, hef]
  · have hef' : jsFalsy req.xGithubEvent = false := by
      cases h : jsFalsy req.xGithubEvent
      · rfl
      · exact absurd h hef
    by_cases hsf : jsFalsy req.xHubSignature256 = true
    · constructor
      · simp [handle, hm, hef', hsf]
      · simp [isOk, handle, hm, hef', hsf]
    · have hsf' : jsFalsy req.xHubSignature256 = false := by
        cases h : jsFalsy req.xHubSignature256
        · rfl
        · exact absurd h hsf
      have hv : (verifySignature hmacHex req.body (req.xHubSignature256.getD "")
          env.GITHUB_WEBHOOK_SECRET).valid = false := by
        rcases hfail with h | h | h
        · exact absurd h hef
        · exact absurd h hsf
        · exact h
      constructor
      · simp [handle, hm, hef', hsf', hv]
      · simp [isOk, handle, hm, hef', hsf', hv]

theorem claim_C10_witness :
    handle demoHmac demoParse demoStringify demoFetch204
        ⟨"POST", "b", some "installation", some "sha256=wrong"⟩ ⟨"t", "k"⟩ =
      handle demoHmac failParse demoStringify demoFetch204
        ⟨"POST", "b", some "installation", some "sha256=wrong"⟩ ⟨"t", "k"⟩
    ∧ isOk (handle demoHmac demoParse demoStringify demoFetch204
        ⟨"POST", "b", some "installation", some "sha256=wrong"⟩ ⟨"t", "k"⟩) = true :=
  claim_C10 demoHmac demoParse failParse demoStringify demoFetch204
    ⟨"POST", "b", some "installation", some "sha256=wrong"⟩ ⟨"t", "k"⟩
    rfl (Or.inr (Or.inr (by decide)))

end LeaderboardBot
